import Mathlib

/-!
Shallow embedding of the Nurse-Agent repository (src/live_nurse_agent.py and
src/gradio_ui.py) for checking its specification.

Python dictionaries with string keys and string values are modelled as
association lists `List (String × String)` with first-match lookup; Python
byte strings as `List Nat`; fallible external calls (the chat-completion
service, the transcription service, the audio backend) as explicit
`Except`-valued parameters supplied by the environment.
-/

namespace NurseAgent

/-- Python `d.get(k)` on a string-keyed dict: first-match lookup. -/
def dget : List (String × String) → String → Option String
  | [], _ => none
  | (a, b) :: t, k => if a = k then some b else dget t k

/-- Python `d.get(k, dflt)` on a string-keyed dict. -/
def dgetD (d : List (String × String)) (k dflt : String) : String :=
  match dget d k with
  | some v => v
  | none => dflt

/-- Python `d[k] = v` on a string-keyed dict: replace in place if the key is
present, append otherwise. -/
def dset (d : List (String × String)) (k v : String) : List (String × String) :=
  if (dget d k).isSome then
    d.map (fun p => if p.1 = k then (k, v) else p)
  else
    d ++ [(k, v)]

/-- Python string truthiness for `x or dflt` on strings: empty is falsy. -/
def pyOr (s dflt : String) : String :=
  if s = "" then dflt else s

/-- The whitespace characters removed by Python `str.strip()`:
space, tab, newline, carriage return, vertical tab, form feed. -/
def pyIsSpace (c : Char) : Bool :=
  c == ' ' || c == '\t' || c == '\n' || c == '\r' || c.toNat == 11 || c.toNat == 12

/-- Strip `pyIsSpace` characters from both ends of a character list. -/
def stripChars (l : List Char) : List Char :=
  ((l.dropWhile pyIsSpace).reverse.dropWhile pyIsSpace).reverse

/-- Python `str.strip()` with no arguments. -/
def pyStrip (s : String) : String :=
  ⟨stripChars s.data⟩

/-- Concatenation of a list of strings (the pieces of an f-string). -/
def strConcat (l : List String) : String :=
  ⟨(l.map String.data).flatten⟩

/-- Does `pat` occur at the head of the character list? -/
def startsWithL : List Char → List Char → Bool
  | [], _ => true
  | _ :: _, [] => false
  | a :: as, b :: bs => a == b && startsWithL as bs

/-- Number of (possibly overlapping) occurrences of the pattern `pat` in a
character list; used to count placeholder substrings in rendered prompts. -/
def countOcc (pat : List Char) : List Char → Nat
  | [] => 0
  | c :: t => (if startsWithL pat (c :: t) then 1 else 0) + countOcc pat t

/-! ### The prompt template of `format_patient_data_for_llm`
(src/live_nurse_agent.py lines 165-240)

The Python f-string is a sequence of literal pieces and interpolations;
we embed it as a list of items.  `field k dflt` is `{patient_data.get(k, dflt)}`;
`optField pre k` is the conditional line
`{f"pre{patient_data.get(k, '')}" if patient_data.get(k) else ""}`. -/

inductive Item where
  | lit (s : String)
  | field (key dflt : String)
  | optField (pre key : String)
  deriving DecidableEq

/-- Rendering of one template item against a patient-data dict, exactly as the
f-string interpolates it. -/
def renderItem (d : List (String × String)) : Item → String
  | .lit s => s
  | .field k dflt => dgetD d k dflt
  | .optField pre k =>
    match dget d k with
    | some v => if v = "" then "" else pre ++ v
    | none => ""

set_option maxHeartbeats 1600000 in
/-- The f-string template of `format_patient_data_for_llm`, piece by piece. -/
def templateItems : List Item := [
  .lit "\nFEVER PROFORMA - PATIENT DATA\n\nPATIENT INFORMATION:\n- Name: ",
  .field "name" "Not provided",
  .lit "\n- Age: ",
  .field "age" "Not provided",
  .lit "\n- Gender: ",
  .field "gender" "Not provided",
  .lit "\n- Date: ",
  .field "date" "Not provided",
  .lit "\n- Occupation: ",
  .field "occupation" "Not provided",
  .lit "\n- Address: ",
  .field "address" "Not provided",
  .lit "\n\nCHIEF COMPLAINT:\n- Fever Present: ",
  .field "fever_present" "Not provided",
  .lit "\n- Duration: ",
  .field "duration" "Not provided",
  .lit "\n- Onset: ",
  .field "onset" "Not provided",
  .lit "\n\nHISTORY OF PRESENTING ILLNESS:\n1. Characteristics of Fever:\n   - Frequency: ",
  .field "fever_frequency" "Not provided",
  .lit "\n   - Timing: ",
  .field "fever_timing" "Not provided",
  .lit "\n   - Maximum Temperature: ",
  .field "max_temperature" "Not provided",
  .lit "\n\n2. Associated Symptoms:\n   - Chills and Shivering: ",
  .field "chills_shivering" "Not provided",
  .lit "\n   - Sweating: ",
  .field "sweating" "Not provided",
  .lit "\n   - Fatigue: ",
  .field "fatigue" "Not provided",
  .lit "\n   - Headache: ",
  .field "headache" "Not provided",
  .lit "\n   - Muscle Pain: ",
  .field "muscle_pain" "Not provided",
  .lit "\n   - Joint Pain: ",
  .field "joint_pain" "Not provided",
  .lit "\n   - Rash: ",
  .field "rash" "Not provided",
  .lit "\n   ",
  .optField "   - Rash Description: " "rash_description",
  .lit "\n   - Cough: ",
  .field "cough" "Not provided",
  .lit "\n   ",
  .optField "   - Sputum Present: " "sputum_present",
  .lit "\n   - Sore Throat: ",
  .field "sore_throat" "Not provided",
  .lit "\n   - Nasal Discharge: ",
  .field "nasal_discharge" "Not provided",
  .lit "\n   - Abdominal Pain: ",
  .field "abdominal_pain" "Not provided",
  .lit "\n   - Nausea/Vomiting: ",
  .field "nausea_vomiting" "Not provided",
  .lit "\n   - Diarrhea: ",
  .field "diarrhea" "Not provided",
  .lit "\n   - Urinary Symptoms: ",
  .field "urinary_symptoms" "Not provided",
  .lit "\n\n3. Fever Progression: ",
  .field "fever_progression" "Not provided",
  .lit "\n\nPAST MEDICAL HISTORY:\n- Chronic Illnesses: ",
  .field "chronic_illnesses" "Not provided",
  .lit "\n- Previous Fever/Infections: ",
  .field "previous_fever_infections" "Not provided",
  .lit "\n\nMEDICATION HISTORY:\n- Allergies: ",
  .field "allergies" "Not provided",
  .lit "\n- Current Medications: ",
  .field "current_medications" "Not provided",
  .lit "\n- Fever Treatment History: ",
  .field "fever_treatment_history" "Not provided",
  .lit "\n\nSOCIAL HISTORY:\n- Smoking: ",
  .field "smoking" "Not provided",
  .lit "\n- Alcohol: ",
  .field "alcohol" "Not provided",
  .lit "\n- Travel History: ",
  .field "travel_history" "Not provided",
  .lit "\n- Living Conditions: ",
  .field "living_conditions" "Not provided",
  .lit "\n\nEXPOSURE HISTORY:\n- Contact with Sick Individuals: ",
  .field "contact_with_sick" "Not provided",
  .lit "\n- Mosquito/Vector Exposure: ",
  .field "mosquito_exposure" "Not provided",
  .lit "\n- Contaminated Food/Water Exposure: ",
  .field "contaminated_food_water" "Not provided",
  .lit "\n\nADDITIONAL NOTES:\n",
  .field "additional_notes" "None provided",
  .lit "\n"]

/-- `format_patient_data_for_llm` (src/live_nurse_agent.py lines 165-240):
render the template against the patient-data dict and strip the result.
Total by construction: it returns a string and never raises. -/
def format_patient_data_for_llm (d : List (String × String)) : String :=
  pyStrip (strConcat (templateItems.map (renderItem d)))

/-! ### Whisper recording session (src/live_nurse_agent.py lines 456-586)

The mutable attributes set in `__init__` (lines 71-81) that the Whisper
recording methods touch.  A PCM chunk (a Python byte string read from the
audio stream) is a list of byte values; the PyAudio handle and the open
stream are modelled by their presence. -/

abbrev Chunk := List Nat

structure AgentState where
  whisper_recording : Bool
  whisper_frames : List Chunk
  whisper_audio_stream : Option Unit
  whisper_pyaudio : Option Unit
  deriving DecidableEq

/-- `self.WHISPER_CHANNELS` (line 79). -/
def WHISPER_CHANNELS : Nat := 1

/-- `self.WHISPER_RATE` (line 80): 16 kHz for Whisper. -/
def WHISPER_RATE : Nat := 16000

/-- `self.WHISPER_CHUNK` (line 81). -/
def WHISPER_CHUNK : Nat := 1024

structure StartResult where
  state : AgentState
  success : Bool
  message : String
  deriving DecidableEq

/-- `start_whisper_recording` (lines 458-492).  `pyaudioAvailable` is the
module-level `PYAUDIO_AVAILABLE` flag; `pyInit` and `streamOpen` are the
outcomes of `pyaudio.PyAudio()` and of opening the input stream (either may
raise, caught by the surrounding try/except). -/
def start_whisper_recording (st : AgentState) (pyaudioAvailable : Bool)
    (pyInit streamOpen : Except String Unit) : StartResult :=
  if !pyaudioAvailable then ⟨st, false, "PyAudio not available for Whisper recording"⟩
  else if st.whisper_recording then ⟨st, false, "Already recording with Whisper"⟩
  else
    match pyInit with
    | .error e => ⟨st, false, "Error starting Whisper recording: " ++ e⟩
    | .ok _ =>
      let st1 := { st with whisper_pyaudio := some () }
      match streamOpen with
      | .error e => ⟨st1, false, "Error starting Whisper recording: " ++ e⟩
      | .ok _ =>
        ⟨{ st1 with
            whisper_audio_stream := some ()
            whisper_frames := []
            whisper_recording := true },
          true, "Whisper recording started successfully"⟩

/-- `record_audio_continuously` (lines 494-510).  `readResult` is the outcome
of `self.whisper_audio_stream.read(...)`; a raised exception is caught and
turns into a `False` return with no append. -/
def record_audio_continuously (st : AgentState) (readResult : Except String Chunk) :
    AgentState × Bool :=
  if !st.whisper_recording || st.whisper_audio_stream.isNone then (st, false)
  else
    match readResult with
    | .ok data => ({ st with whisper_frames := st.whisper_frames ++ [data] }, true)
    | .error _ => (st, false)

/-- The WAV file written with the `wave` module (lines 548-552): channel
count, sample width in bytes, frame rate, and the joined audio frames. -/
structure WavFile where
  nchannels : Nat
  sampwidth : Nat
  framerate : Nat
  frames : Chunk
  deriving DecidableEq

/-- Result of `stop_whisper_recording`: the state afterwards, the returned
string, the WAV file written to the temp file (if any), and whether the
transcription endpoint was invoked. -/
structure StopResult where
  state : AgentState
  transcript : String
  wav : Option WavFile
  transcriptionCalled : Bool
  deriving DecidableEq

/-- `stop_whisper_recording` (lines 512-586).  `transcribe` is the outcome of
the Whisper API call (`.error` when `client.audio.transcriptions.create`
raises, caught at line 579); on success the code strips the returned text.
The temp-file bookkeeping has no observable effect and is omitted. -/
def stop_whisper_recording (st : AgentState) (transcribe : Except String String) :
    StopResult :=
  if !st.whisper_recording then ⟨st, "No Whisper recording in progress", none, false⟩
  else
    let st1 : AgentState :=
      { st with
        whisper_recording := false
        whisper_audio_stream := none
        whisper_pyaudio := none }
    if st1.whisper_frames = [] then ⟨st1, "No audio data recorded", none, false⟩
    else
      let wav : WavFile := ⟨WHISPER_CHANNELS, 2, WHISPER_RATE, st1.whisper_frames.flatten⟩
      match transcribe with
      | .ok text =>
        let transcribed_text := pyStrip text
        let st2 := { st1 with whisper_frames := [] }
        if transcribed_text = "" then ⟨st2, "No speech detected in recording", some wav, true⟩
        else ⟨st2, transcribed_text, some wav, true⟩
      | .error e => ⟨st1, "Error transcribing with Whisper: " ++ e, some wav, true⟩

/-! ### GPT extraction and diagnosis (src/live_nurse_agent.py lines 242-295
and 642-748) -/

/-- Outcome of the chat-completion call made by
`extract_patient_data_from_speech` followed by `json.loads` on its content:
the call raised (`failure`, also covering a parsed non-dict value, whose
`.get` raises `AttributeError` into the same generic handler), the content
was not valid JSON (`malformed`, the `json.JSONDecodeError` handler at line
731), or it parsed to a string-valued mapping (`parsed`). -/
inductive LLMResponse where
  | failure (err : String)
  | malformed
  | parsed (data : List (String × String))
  deriving DecidableEq

/-- `extract_patient_data_from_speech` (lines 642-748), with `today` standing
for `datetime.now().strftime("%Y-%m-%d")`. -/
def extract_patient_data_from_speech (speech_text today : String) (resp : LLMResponse) :
    List (String × String) :=
  match resp with
  | .parsed data =>
    let d1 := if dget data "date" = some "Not mentioned" then dset data "date" today else data
    dset d1 "original_speech" speech_text
  | .malformed =>
    [("name", "Not extracted"), ("age", "Not extracted"), ("gender", "Not extracted"),
      ("date", today), ("additional_notes", speech_text), ("original_speech", speech_text)]
  | .failure e =>
    [("name", "Error in extraction"), ("additional_notes", speech_text),
      ("original_speech", speech_text), ("extraction_error", e)]

/-- `generate_diagnosis_and_next_steps` (lines 242-295): one unconditional
chat-completion call on `patient_data_text`; the response content is returned
verbatim, an exception as an error string. -/
def generate_diagnosis_and_next_steps (patient_data_text : String)
    (resp : Except String String) : String :=
  match patient_data_text, resp with
  | _, .ok content => content
  | _, .error e => "Error generating diagnosis: " ++ e

/-! ### UI layer (src/gradio_ui.py)

Each `process_*` entry point returns the displayed string together with the
number of external chat-completion calls it attempted. -/

/-- Environment for `process_speech_input`: the responses of its two
chat-completion calls (extraction, then diagnosis). -/
structure SpeechEnv where
  extractResp : LLMResponse
  diagResp : Except String String

/-- `NurseAgentUI.process_speech_input` (src/gradio_ui.py lines 138-168). -/
def process_speech_input (initialized : Bool) (today transcribed_text : String)
    (env : SpeechEnv) : String × Nat :=
  if !initialized then ("❌ System not initialized properly", 0)
  else if transcribed_text = "" then ("❌ No transcribed text to process", 0)
  else
    let patient_data := extract_patient_data_from_speech transcribed_text today env.extractResp
    let formatted := format_patient_data_for_llm patient_data ++
      "\n\nORIGINAL PATIENT DESCRIPTION:\n" ++ transcribed_text
    (generate_diagnosis_and_next_steps formatted env.diagResp, 2)

/-- `NurseAgentUI.process_only_speech_input` (src/gradio_ui.py lines 170-201). -/
def process_only_speech_input (initialized : Bool) (today transcribed_text : String)
    (diagResp : Except String String) : String × Nat :=
  if !initialized then ("❌ System not initialized properly", 0)
  else if transcribed_text = "" then ("❌ No transcribed text to process", 0)
  else
    let patient_description := "\nPATIENT DESCRIPTION (Raw Speech):\n" ++ transcribed_text ++
      "\n\nDate of Assessment: " ++ today ++ "\n"
    (generate_diagnosis_and_next_steps patient_description diagResp, 1)

/-- The 31 widget values passed to `process_form_input`
(src/gradio_ui.py lines 203-209); a blank widget is the empty string. -/
structure FormArgs where
  name : String
  age : String
  gender : String
  fever_present : String
  duration : String
  onset : String
  fever_frequency : String
  fever_timing : String
  max_temp : String
  chills : String
  sweating : String
  fatigue : String
  headache : String
  muscle_pain : String
  joint_pain : String
  rash : String
  cough : String
  sore_throat : String
  nasal_discharge : String
  abdominal_pain : String
  nausea_vomiting : String
  diarrhea : String
  urinary_symptoms : String
  fever_progression : String
  chronic_illnesses : String
  allergies : String
  current_medications : String
  smoking : String
  alcohol : String
  travel_history : String
  additional_notes : String
  deriving DecidableEq

/-- The `patient_data` dict literal of `process_form_input`
(src/gradio_ui.py lines 221-254), in source order. -/
def form_patient_data (today : String) (a : FormArgs) : List (String × String) :=
  [("name", pyOr a.name "Not provided"),
    ("age", pyOr a.age "Not provided"),
    ("gender", pyOr a.gender "Not provided"),
    ("date", today),
    ("fever_present", a.fever_present),
    ("duration", pyOr a.duration "Not provided"),
    ("onset", a.onset),
    ("fever_frequency", a.fever_frequency),
    ("fever_timing", a.fever_timing),
    ("max_temperature", pyOr a.max_temp "Not provided"),
    ("chills_shivering", a.chills),
    ("sweating", a.sweating),
    ("fatigue", a.fatigue),
    ("headache", a.headache),
    ("muscle_pain", a.muscle_pain),
    ("joint_pain", a.joint_pain),
    ("rash", a.rash),
    ("cough", a.cough),
    ("sore_throat", a.sore_throat),
    ("nasal_discharge", a.nasal_discharge),
    ("abdominal_pain", a.abdominal_pain),
    ("nausea_vomiting", a.nausea_vomiting),
    ("diarrhea", a.diarrhea),
    ("urinary_symptoms", a.urinary_symptoms),
    ("fever_progression", a.fever_progression),
    ("chronic_illnesses", pyOr a.chronic_illnesses "None"),
    ("allergies", pyOr a.allergies "None"),
    ("current_medications", pyOr a.current_medications "None"),
    ("smoking", a.smoking),
    ("alcohol", a.alcohol),
    ("travel_history", pyOr a.travel_history "None"),
    ("additional_notes", pyOr a.additional_notes "None")]

/-- `NurseAgentUI.process_form_input` (src/gradio_ui.py lines 203-265). -/
def process_form_input (initialized : Bool) (today : String) (a : FormArgs)
    (diagResp : Except String String) : String × Nat :=
  if !initialized then ("❌ System not initialized properly", 0)
  else
    (generate_diagnosis_and_next_steps
      (format_patient_data_for_llm (form_patient_data today a)) diagResp, 1)

/-! ### Concrete states and inputs used by witnesses and counterexamples -/

/-- An agent with an active Whisper session holding one captured chunk. -/
def activeState : AgentState := ⟨true, [[7, 8]], some (), some ()⟩

/-- An agent with no active Whisper session. -/
def idleState : AgentState := ⟨false, [], none, none⟩

/-- All 31 form widgets blank. -/
def blankFormArgs : FormArgs :=
  ⟨"", "", "", "", "", "", "", "", "", "", "", "", "", "", "", "",
    "", "", "", "", "", "", "", "", "", "", "", "", "", "", ""⟩

/-- Template fields default to "Not provided" except `additional_notes`. -/
def fieldDefaultOK : Item → Bool
  | .field k dflt => k == "additional_notes" || dflt == "Not provided"
  | _ => true

/-! ### Helper lemmas -/

theorem dget_map_replace (k v : String) :
    ∀ d : List (String × String), (dget d k).isSome →
      dget (d.map (fun p => if p.1 = k then (k, v) else p)) k = some v
  | [], h => by simp [dget] at h
  | (a, b) :: t, h => by
    simp only [List.map_cons]
    by_cases ha : a = k
    · subst ha
      rw [if_pos rfl]
      simp [dget]
    · rw [if_neg ha]
      have ht : (dget t k).isSome := by simpa [dget, ha] using h
      simpa [dget, ha] using dget_map_replace k v t ht

theorem dget_append_missing (k v : String) :
    ∀ d : List (String × String), dget d k = none →
      dget (d ++ [(k, v)]) k = some v
  | [], _ => by simp [dget]
  | (a, b) :: t, h => by
    by_cases ha : a = k
    · simp [dget, ha] at h
    · have ht : dget t k = none := by simpa [dget, ha] using h
      simpa [dget, ha] using dget_append_missing k v t ht

/-- Python dict assignment followed by lookup of the same key. -/
theorem dget_dset (d : List (String × String)) (k v : String) :
    dget (dset d k v) k = some v := by
  unfold dset
  by_cases h : (dget d k).isSome
  · simpa [h] using dget_map_replace k v d h
  · have hn : dget d k = none := by
      cases hd : dget d k with
      | none => rfl
      | some w => simp [hd] at h
    simpa [h] using dget_append_missing k v d hn

set_option maxRecDepth 100000 in
theorem templateItems_defaults_ok : templateItems.all fieldDefaultOK = true := by decide

/-! ### C1 -/

/-- C1 counterexample: on an active session with one captured chunk, if the
transcription call fails, `stop_whisper_recording` returns an error string
and the captured-frames buffer is NOT empty afterwards — refuting the claim
that the buffer is empty regardless of whether the returned transcript is an
error string. -/
theorem stop_whisper_frames_retained_on_error_example :
    activeState.whisper_recording = true ∧
    (stop_whisper_recording activeState (.error "service unavailable")).transcript =
      "Error transcribing with Whisper: service unavailable" ∧
    (stop_whisper_recording activeState (.error "service unavailable")).state.whisper_frames
      ≠ [] := by
  refine ⟨rfl, rfl, by decide⟩

/-- C1 (amended): after `stop_whisper_recording` on an active session, the
captured-frames buffer is empty whenever the transcription call succeeds (in
particular also when the stripped transcript is empty), and is left unchanged
(not cleared) whenever the transcription call raises, in which case an error
string is returned. -/
theorem stop_whisper_frames_after_active_stop (st : AgentState)
    (h : st.whisper_recording = true) :
    (∀ t, (stop_whisper_recording st (.ok t)).state.whisper_frames = []) ∧
    (∀ e, (stop_whisper_recording st (.error e)).state.whisper_frames =
      st.whisper_frames) := by
  constructor
  · intro t
    by_cases hf : st.whisper_frames = [] <;>
      by_cases hs : pyStrip t = "" <;>
        simp [stop_whisper_recording, h, hf, hs]
  · intro e
    by_cases hf : st.whisper_frames = [] <;>
      simp [stop_whisper_recording, h, hf]

/-- C1 witness: the amended statement at a concrete active state. -/
theorem stop_whisper_frames_after_active_stop_witness :
    (stop_whisper_recording activeState (.ok "hello")).state.whisper_frames = [] :=
  (stop_whisper_frames_after_active_stop activeState rfl).1 "hello"

/-! ### C2 -/

set_option maxRecDepth 100000 in
set_option maxHeartbeats 4000000 in
/-- C2 counterexample: `additional_notes` is a template field whose default is
"None provided", not "Not provided"; on the empty mapping the field is
missing, it renders as "None provided", and the rendered prompt contains that
placeholder — refuting the claim that every missing field is substituted with
the literal "Not provided". -/
theorem format_additional_notes_placeholder_example :
    Item.field "additional_notes" "None provided" ∈ templateItems ∧
    dget [] "additional_notes" = none ∧
    renderItem [] (Item.field "additional_notes" "None provided") = "None provided" ∧
    "None provided" ≠ "Not provided" ∧
    countOcc "None provided".data (format_patient_data_for_llm []).data = 1 := by
  refine ⟨by decide, rfl, rfl, by decide, by decide⟩

/-- C2 (amended): `format_patient_data_for_llm` is total (it returns a string
and never raises, by construction), and for every field mapping each missing
template field is substituted with its template default; that default is the
literal "Not provided" for every field except `additional_notes`, whose
default is "None provided"; the optional `rash_description` /
`sputum_present` lines render as the empty string when their field is
missing. -/
theorem format_missing_field_substitution (d : List (String × String)) (it : Item)
    (hmem : it ∈ templateItems) :
    (∀ k dflt, it = .field k dflt → dget d k = none →
      renderItem d it = dflt ∧ (k = "additional_notes" ∨ dflt = "Not provided")) ∧
    (∀ pre k, it = .optField pre k → dget d k = none → renderItem d it = "") := by
  constructor
  · rintro k dflt rfl hmiss
    refine ⟨by simp [renderItem, dgetD, hmiss], ?_⟩
    have h := List.all_eq_true.mp templateItems_defaults_ok _ hmem
    simpa [fieldDefaultOK, Bool.or_eq_true, beq_iff_eq] using h
  · rintro pre k rfl hmiss
    simp [renderItem, hmiss]

set_option maxRecDepth 100000 in
/-- C2 witness: the amended statement at the empty mapping and the `name`
field. -/
theorem format_missing_field_substitution_witness :
    renderItem [] (Item.field "name" "Not provided") = "Not provided" :=
  ((format_missing_field_substitution [] (Item.field "name" "Not provided")
      (by decide)).1 "name" "Not provided" rfl rfl).1

/-! ### C3 -/

set_option maxRecDepth 100000 in
set_option maxHeartbeats 4000000 in
/-- C3 counterexample: with all 31 form widgets blank, the prompt rendered by
`process_form_input` before the external call does not contain 35
occurrences of "Not provided" — refuting the claimed count. -/
theorem blank_form_prompt_placeholder_count_example :
    countOcc "Not provided".data
      (format_patient_data_for_llm (form_patient_data "2026-10-12" blankFormArgs)).data
      ≠ 35 := by
  decide

set_option maxRecDepth 100000 in
set_option maxHeartbeats 4000000 in
/-- C3 (amended): with all form widgets blank, the rendered prompt contains
exactly 13 occurrences of "Not provided" (5 fields defaulted by
`process_form_input` itself plus 8 proforma fields the form never sets,
substituted by the template), and the external chat-completion call is still
attempted (exactly one call), whatever it returns. -/
theorem blank_form_prompt_thirteen_placeholders (diagResp : Except String String) :
    countOcc "Not provided".data
      (format_patient_data_for_llm (form_patient_data "2026-10-12" blankFormArgs)).data
      = 13 ∧
    (process_form_input true "2026-10-12" blankFormArgs diagResp).2 = 1 :=
  ⟨by decide, rfl⟩

/-! ### C4 -/

/-- C4: on an active session with a non-empty captured-frames buffer, the WAV
file serialized by `stop_whisper_recording` has 1 channel, sample width 2
bytes (16-bit), frame rate 16000 Hz, and its audio frames are exactly the
concatenation of the captured chunks in append order — for every
transcription outcome. -/
theorem stop_whisper_wav_format (st : AgentState) (r : Except String String)
    (h : st.whisper_recording = true) (hne : st.whisper_frames ≠ []) :
    (stop_whisper_recording st r).wav =
      some ⟨WHISPER_CHANNELS, 2, WHISPER_RATE, st.whisper_frames.flatten⟩ ∧
    WHISPER_CHANNELS = 1 ∧ WHISPER_RATE = 16000 := by
  refine ⟨?_, rfl, rfl⟩
  cases r with
  | ok t => by_cases hs : pyStrip t = "" <;> simp [stop_whisper_recording, h, hne, hs]
  | error e => simp [stop_whisper_recording, h, hne]

/-- C4 witness: the statement at a concrete active state with one chunk. -/
theorem stop_whisper_wav_format_witness :
    (stop_whisper_recording activeState (.ok "hi")).wav =
      some ⟨WHISPER_CHANNELS, 2, WHISPER_RATE, activeState.whisper_frames.flatten⟩ ∧
    WHISPER_CHANNELS = 1 ∧ WHISPER_RATE = 16000 :=
  stop_whisper_wav_format activeState (.ok "hi") rfl (by decide)

/-! ### C5 -/

/-- C5: `record_audio_continuously` returns `false` and leaves the buffer
unchanged whenever the recording flag is false or the audio stream is absent,
and a chunk can be appended only while the recording flag is true. -/
theorem record_audio_append_guard (st : AgentState) (r : Except String Chunk) :
    ((st.whisper_recording = false ∨ st.whisper_audio_stream = none) →
      record_audio_continuously st r = (st, false)) ∧
    ((record_audio_continuously st r).1.whisper_frames ≠ st.whisper_frames →
      st.whisper_recording = true) := by
  constructor
  · rintro (h | h) <;> simp [record_audio_continuously, h]
  · intro hne
    cases hrec : st.whisper_recording with
    | true => rfl
    | false =>
      exfalso
      apply hne
      simp [record_audio_continuously, hrec]

/-- C5 witness: an inactive session leaves the buffer unchanged and signals
the poller to stop. -/
theorem record_audio_append_guard_witness :
    record_audio_continuously idleState (.ok [1]) = (idleState, false) :=
  (record_audio_append_guard idleState (.ok [1])).1 (Or.inl rfl)

/-! ### C6 -/

/-- C6: when a session is already active, `start_whisper_recording` returns an
unsuccessful result with a non-empty error message and leaves the whole
session state (flag, buffer, stream, backend handle) unchanged, whatever the
audio backend availability and stream-open outcomes. -/
theorem start_whisper_rejects_active_session (st : AgentState) (pa : Bool)
    (pyInit streamOpen : Except String Unit) (h : st.whisper_recording = true) :
    (start_whisper_recording st pa pyInit streamOpen).state = st ∧
    (start_whisper_recording st pa pyInit streamOpen).success = false ∧
    (start_whisper_recording st pa pyInit streamOpen).message ≠ "" := by
  cases pa <;> simp [start_whisper_recording, h]

/-- C6 witness: the statement at a concrete active state. -/
theorem start_whisper_rejects_active_session_witness :
    (start_whisper_recording activeState true (.ok ()) (.ok ())).state = activeState ∧
    (start_whisper_recording activeState true (.ok ()) (.ok ())).success = false ∧
    (start_whisper_recording activeState true (.ok ()) (.ok ())).message ≠ "" :=
  start_whisper_rejects_active_session activeState true (.ok ()) (.ok ()) rfl

/-! ### C7 -/

/-- C7: `stop_whisper_recording` on an inactive session is a no-op error: the
state (in particular the buffer) is unchanged, the returned string is the
no-session error message, no WAV is produced and the transcription endpoint
is not invoked; being total, it never raises. -/
theorem stop_whisper_inactive_noop (st : AgentState) (r : Except String String)
    (h : st.whisper_recording = false) :
    stop_whisper_recording st r = ⟨st, "No Whisper recording in progress", none, false⟩ := by
  simp [stop_whisper_recording, h]

/-- C7 witness: the statement at a concrete inactive state. -/
theorem stop_whisper_inactive_noop_witness :
    stop_whisper_recording idleState (.ok "hi") =
      ⟨idleState, "No Whisper recording in progress", none, false⟩ :=
  stop_whisper_inactive_noop idleState (.ok "hi") rfl

/-! ### C8 -/

/-- C8: when the extraction response is malformed JSON, the returned mapping
contains the original input text verbatim, both under `additional_notes` and
under `original_speech`; the function is total, so no exception escapes. -/
theorem extract_malformed_json_fallback (s today : String) :
    dget (extract_patient_data_from_speech s today .malformed) "original_speech" = some s ∧
    dget (extract_patient_data_from_speech s today .malformed) "additional_notes" = some s :=
  ⟨rfl, rfl⟩

/-! ### C9 -/

/-- C9: on an empty transcript, both diagnosis entry points return the
no-input message and attempt zero external chat-completion calls. -/
theorem empty_transcript_short_circuit (today : String) (env : SpeechEnv)
    (diagResp : Except String String) :
    process_speech_input true today "" env = ("❌ No transcribed text to process", 0) ∧
    process_only_speech_input true today "" diagResp =
      ("❌ No transcribed text to process", 0) :=
  ⟨rfl, rfl⟩

/-! ### C10 -/

/-- C10: every return path of `extract_patient_data_from_speech` (successful
parse, malformed JSON, and any other exception) yields a mapping binding
`original_speech` to the input text verbatim. -/
theorem extract_original_speech_always_present (s today : String) (resp : LLMResponse) :
    dget (extract_patient_data_from_speech s today resp) "original_speech" = some s := by
  cases resp with
  | failure e => rfl
  | malformed => rfl
  | parsed data => exact dget_dset _ "original_speech" s

end NurseAgent
